import Mathlib

/-
Verification of the response-classification and parameter-resolution logic of
amd/src/ace_inline_code.js (Moodle filter_ace_inline plugin).

JavaScript strings are modelled as `List Char`; the numeric fields of the
sandbox response are modelled as `Int`.  Fallible code (the resolver's
post-processing step, which throws a TypeError in JavaScript when the
resolved `class` value is not a string) is modelled with `Except`.
-/

/-- A JavaScript value as it occurs in the UI-parameter maps of the filter:
strings, integers, the not-a-number sentinel produced by a failed integer
parse, booleans and null. -/
inductive JSValue where
  | vstr (s : List Char)
  | vint (n : Int)
  | vnan
  | vbool (b : Bool)
  | vnull
deriving DecidableEq

/-- The response record of the web-service sandbox request: `error` is the
sandbox-level status (0 means the run took place), `result` the outcome code
of the run, and `cmpinfo`, `output`, `stderr` the three text fields. -/
structure SandboxResponse where
  error : Int
  result : Int
  cmpinfo : List Char
  output : List Char
  stderr : List Char

/-- Code for a correct Jobe run (source line 30). -/
def RESULT_SUCCESS : Int := 15

/-- The table of error conditions of `diagnose` (source lines 138-151).
Each row is (response.error, response.result, langstring). -/
def ERROR_RESPONSES : List (Int × Int × String) :=
  [(1, 0, "error_access_denied"),
   (2, 0, "error_unknown_language"),
   (3, 0, "error_access_denied"),
   (4, 0, "error_submission_limit_reached"),
   (5, 0, "error_sandbox_server_overload"),
   (0, 11, ""),
   (0, 12, ""),
   (0, 13, "error_timeout"),
   (0, RESULT_SUCCESS, ""),
   (0, 17, "error_memory_limit"),
   (0, 21, "error_sandbox_server_overload"),
   (0, 30, "error_excessive_output")]

/-- The row loop of `diagnose` (source lines 152-157): the first row whose
error matches — and, when the error is zero, whose result also matches —
wins; no match yields the unknown-runtime langstring. -/
def firstMatch (response : SandboxResponse) : List (Int × Int × String) → String
  | [] => "error_unknown_runtime"
  | row :: rest =>
      if row.1 = response.error ∧ (response.error ≠ 0 ∨ response.result = row.2.1) then
        row.2.2
      else
        firstMatch response rest

/-- `diagnose` (source lines 133-158): analyse the sandbox response for
errors, returning the langstring of an error message, or the empty string
when no error message is to be shown. -/
def diagnose (response : SandboxResponse) : String :=
  firstMatch response ERROR_RESPONSES

/-- The fixed truncation marker appended by `combinedOutput`
(source line 168). -/
def truncMarker : List Char := "... (truncated)".data

/-- The local `limit` closure of `combinedOutput` (source line 168):
strings no longer than `maxLen` pass unchanged, longer strings are cut to
`maxLen` characters and the truncation marker is appended. -/
def limit (maxLen : Nat) (s : List Char) : List Char :=
  if s.length ≤ maxLen then s else s.take maxLen ++ truncMarker

/-- `combinedOutput` (source lines 167-170): concatenate the `cmpinfo`,
`output` and `stderr` fields of the response, truncating `output` and
`stderr` (but not `cmpinfo`). -/
def combinedOutput (response : SandboxResponse) (maxLen : Nat) : List Char :=
  response.cmpinfo ++ limit maxLen response.output ++ limit maxLen response.stderr

/-- The `text` string assembled by the `done` callback of `executeCode`
(source lines 306-338), before localisation: when `diagnose` returns the
empty category the combined output is shown (unless valid HTML output is
requested and the run succeeded, in which case the raw html goes straight
into the DOM and `text` stays empty); otherwise `text` is the combined
output for error 0 (empty for a sandbox error), with the raw numeric code
appended in the unknown-runtime case only. -/
def doneText (response : SandboxResponse) (maxLen : Nat) (htmlOutput : Bool) :
    List Char :=
  let error := diagnose response
  if error = "" then
    if ¬ htmlOutput ∨ response.result ≠ RESULT_SUCCESS then
      combinedOutput response maxLen
    else
      []
  else
    let extra := if response.error = 0 then combinedOutput response maxLen else []
    if error = "error_unknown_runtime" then
      extra ++ (if response.error ≠ 0 then
          ("(Sandbox error code " ++ toString response.error ++ ")").data
        else
          ("(Run result: " ++ toString response.result ++ ")").data)
    else
      extra

/-- One unfolding step of the row loop of `diagnose`. -/
theorem firstMatch_cons (response : SandboxResponse) (row : Int × Int × String)
    (rest : List (Int × Int × String)) :
    firstMatch response (row :: rest) =
      if row.1 = response.error ∧ (response.error ≠ 0 ∨ response.result = row.2.1) then
        row.2.2
      else
        firstMatch response rest := rfl

/-- C1: for every response whose error field is in {1,2,3,4,5}, `diagnose`
returns the fixed corresponding langstring (access denied, unknown
language, access denied, submission limit reached, sandbox server
overload), regardless of the result field. -/
theorem diagnose_sandbox_error_fixed_category (r : SandboxResponse) :
    (r.error = 1 → diagnose r = "error_access_denied") ∧
    (r.error = 2 → diagnose r = "error_unknown_language") ∧
    (r.error = 3 → diagnose r = "error_access_denied") ∧
    (r.error = 4 → diagnose r = "error_submission_limit_reached") ∧
    (r.error = 5 → diagnose r = "error_sandbox_server_overload") := by
  obtain ⟨e, res, c, o, st⟩ := r
  refine ⟨?_, ?_, ?_, ?_, ?_⟩ <;>
    · intro h
      subst h
      rfl

/-- Witness for C1 at a concrete response with error 1 and an arbitrary
result value 99. -/
theorem diagnose_sandbox_error_fixed_category_witness :
    diagnose ⟨1, 99, [], [], []⟩ = "error_access_denied" :=
  (diagnose_sandbox_error_fixed_category ⟨1, 99, [], [], []⟩).1 rfl

/-- C2: for every response with error 0, results 11, 12 and 15 classify to
the empty category and results 13, 17, 21, 30 to timeout, memory limit,
sandbox server overload and excessive output respectively. -/
theorem diagnose_error_zero_result_categories (r : SandboxResponse)
    (h0 : r.error = 0) :
    (r.result = 11 → diagnose r = "") ∧
    (r.result = 12 → diagnose r = "") ∧
    (r.result = 15 → diagnose r = "") ∧
    (r.result = 13 → diagnose r = "error_timeout") ∧
    (r.result = 17 → diagnose r = "error_memory_limit") ∧
    (r.result = 21 → diagnose r = "error_sandbox_server_overload") ∧
    (r.result = 30 → diagnose r = "error_excessive_output") := by
  obtain ⟨e, res, c, o, st⟩ := r
  subst h0
  refine ⟨?_, ?_, ?_, ?_, ?_, ?_, ?_⟩ <;>
    · intro h
      subst h
      rfl

/-- Witness for C2 at a concrete response with error 0 and result 13. -/
theorem diagnose_error_zero_result_categories_witness :
    diagnose ⟨0, 13, [], [], []⟩ = "error_timeout" :=
  (diagnose_error_zero_result_categories ⟨0, 13, [], [], []⟩ rfl).2.2.2.1 rfl

/-- C3: every response matched by no row of the table — error 0 with a
result outside {11,12,13,15,17,21,30}, or an error outside {0,1,2,3,4,5} —
classifies to the unknown-runtime category. -/
theorem diagnose_default_unknown_runtime (r : SandboxResponse)
    (h : (r.error = 0 ∧ r.result ∉ ([11, 12, 13, 15, 17, 21, 30] : List Int)) ∨
         r.error ∉ ([0, 1, 2, 3, 4, 5] : List Int)) :
    diagnose r = "error_unknown_runtime" := by
  simp only [List.mem_cons, List.not_mem_nil, or_false, not_or] at h
  simp only [diagnose, ERROR_RESPONSES, firstMatch_cons, RESULT_SUCCESS]
  iterate 12
    rw [if_neg (by omega)]
  rfl

/-- Witness for C3 at a concrete response with error 0 and result 99. -/
theorem diagnose_default_unknown_runtime_witness :
    diagnose ⟨0, 99, [], [], []⟩ = "error_unknown_runtime" :=
  diagnose_default_unknown_runtime ⟨0, 99, [], [], []⟩ (by decide)

/-- C4: the assembled output is the concatenation of `cmpinfo` with the
independently truncated `output` and `stderr`, and whenever `output` is
strictly longer than `maxLen` the truncated part is the `maxLen`-character
cut followed by the marker, has length `maxLen` plus the marker length,
and ends with the marker. -/
theorem combinedOutput_concatenation_truncation (r : SandboxResponse)
    (maxLen : Nat) :
    combinedOutput r maxLen =
      r.cmpinfo ++ limit maxLen r.output ++ limit maxLen r.stderr ∧
    (maxLen < r.output.length →
      limit maxLen r.output = r.output.take maxLen ++ truncMarker ∧
      (limit maxLen r.output).length = maxLen + truncMarker.length ∧
      truncMarker <:+ limit maxLen r.output) := by
  refine ⟨rfl, fun h => ?_⟩
  have heq : limit maxLen r.output = r.output.take maxLen ++ truncMarker := by
    unfold limit
    rw [if_neg (by omega)]
  refine ⟨heq, ?_, ?_⟩
  · rw [heq, List.length_append, List.length_take]
    omega
  · rw [heq]
    exact List.suffix_append _ _

/-- Witness for C4 at a concrete response whose output exceeds the
maximum length 2. -/
theorem combinedOutput_concatenation_truncation_witness :
    combinedOutput ⟨0, 15, "c".data, "abcdef".data, []⟩ 2 =
      "c".data ++ limit 2 "abcdef".data ++ limit 2 ([] : List Char) ∧
    (2 < "abcdef".data.length →
      limit 2 "abcdef".data = "abcdef".data.take 2 ++ truncMarker ∧
      (limit 2 "abcdef".data).length = 2 + truncMarker.length ∧
      truncMarker <:+ limit 2 "abcdef".data) :=
  combinedOutput_concatenation_truncation ⟨0, 15, "c".data, "abcdef".data, []⟩ 2

/-- C10: truncation is strict at the boundary: strings of length at most
`maxLen` pass through `limit` unchanged (no marker), strictly longer
strings get cut and marked, and `cmpinfo` is always an untruncated exact
prefix of the combined output. -/
theorem limit_boundary_strict (s : List Char) (maxLen : Nat)
    (r : SandboxResponse) :
    (s.length ≤ maxLen → limit maxLen s = s) ∧
    (maxLen < s.length → limit maxLen s = s.take maxLen ++ truncMarker) ∧
    r.cmpinfo <+: combinedOutput r maxLen := by
  refine ⟨fun h => ?_, fun h => ?_, ?_⟩
  · unfold limit
    rw [if_pos h]
  · unfold limit
    rw [if_neg (by omega)]
  · unfold combinedOutput
    exact (List.prefix_append _ _).trans (List.prefix_append _ _)

/-- Witness for C10 at a string whose length equals the maximum length 3
(kept unchanged) and a concrete response. -/
theorem limit_boundary_strict_witness :
    limit 3 "abc".data = "abc".data ∧
    "c".data <+: combinedOutput ⟨0, 15, "c".data, [], []⟩ 3 :=
  ⟨(limit_boundary_strict "abc".data 3 ⟨0, 15, "c".data, [], []⟩).1 (by decide),
   (limit_boundary_strict "abc".data 3 ⟨0, 15, "c".data, [], []⟩).2.2⟩

/-- C8: the presented text carries a raw numeric code suffix exactly in the
unknown-runtime case: there, a nonzero sandbox error appends its code and a
zero error appends the raw run result; every other non-empty category
presents only the combined output (for error 0) or nothing, with no raw
code appended. -/
theorem doneText_raw_code_suffix (r : SandboxResponse) (maxLen : Nat)
    (htmlOutput : Bool) :
    (diagnose r = "error_unknown_runtime" →
      doneText r maxLen htmlOutput =
        (if r.error = 0 then
          combinedOutput r maxLen ++ ("(Run result: " ++ toString r.result ++ ")").data
        else
          ("(Sandbox error code " ++ toString r.error ++ ")").data)) ∧
    (diagnose r ≠ "" → diagnose r ≠ "error_unknown_runtime" →
      doneText r maxLen htmlOutput =
        if r.error = 0 then combinedOutput r maxLen else []) := by
  constructor
  · intro h
    unfold doneText
    rw [h]
    by_cases he : r.error = 0 <;> simp [he]
  · intro h1 h2
    unfold doneText
    rw [if_neg h1, if_neg h2]

/-- Witness for C8 at the spec scenario response with error 0 and unknown
result 99 and output "x". -/
theorem doneText_raw_code_suffix_witness :
    doneText ⟨0, 99, [], "x".data, []⟩ 100 false =
      (if (0 : Int) = 0 then
        combinedOutput ⟨0, 99, [], "x".data, []⟩ 100 ++
          ("(Run result: " ++ toString (99 : Int) ++ ")").data
      else
        ("(Sandbox error code " ++ toString (0 : Int) ++ ")").data) :=
  (doneText_raw_code_suffix ⟨0, 99, [], "x".data, []⟩ 100 false).1 (by decide)

/-
Parameter resolution: getUiParameters (source lines 64-101).

A DOM attribute source is modelled as a partial map from attribute names to
attribute string values (`pre.attributes.getNamedItem`); the default and
resolved UI-parameter objects as association lists from names to JSValue.
-/

/-- JavaScript property lookup on an object modelled as an association
list: the first entry with the given key wins (a JavaScript object has at
most one entry per key). -/
def lookupKey (m : List (String × JSValue)) (k : String) : Option JSValue :=
  match m with
  | [] => none
  | p :: rest => if p.1 = k then some p.2 else lookupKey rest k

/-- A DOM element's attribute map, as consulted via getNamedItem. -/
abbrev AttrSource := String → Option (List Char)

/-- The two-tier attribute lookup of getUiParameters (source lines 70-76):
try the attribute name directly, then with the "data-" namespace. -/
def lookupAttr (pre : AttrSource) (attrName : String) : Option (List Char) :=
  match pre attrName with
  | some v => some v
  | none => pre ("data-" ++ attrName)

/-- One step of `startsWithList s pat`: the JavaScript String.startsWith
test, true when `pat` is an initial segment of `s`. -/
def startsWithList : List Char → List Char → Bool
  | _, [] => true
  | [], _ :: _ => false
  | c :: cs, p :: ps => c == p && startsWithList cs ps

/-- The JavaScript String.replace with a plain-string pattern: replace the
first occurrence of `pat` in the subject with `repl` (the subject unchanged
when `pat` does not occur). -/
def replaceOnce (pat repl : List Char) : List Char → List Char
  | [] => if pat = [] then repl else []
  | c :: rest =>
      if startsWithList (c :: rest) pat then
        repl ++ (c :: rest).drop pat.length
      else
        c :: replaceOnce pat repl rest

/-- The JavaScript String.split(" "): cut the string at every single space
character, keeping empty pieces. -/
def splitOnSpace : List Char → List (List Char)
  | [] => [[]]
  | c :: rest =>
      let ts := splitOnSpace rest
      if c == ' ' then
        [] :: ts
      else
        match ts with
        | [] => [[c]]
        | t :: ts2 => (c :: t) :: ts2

/-- Numeric value of a decimal digit character (its code point minus the
code point of the zero digit). -/
def digitVal (c : Char) : Int := Int.ofNat (c.toNat - 48)

/-- Digit run of the modelled parseInt: the longest leading run of decimal
digits, as a (possibly negated) integer, or the not-a-number sentinel when
there is no leading digit. -/
def parseDigits (neg : Bool) (s : List Char) : JSValue :=
  let ds := s.takeWhile Char.isDigit
  if ds = [] then
    JSValue.vnan
  else
    JSValue.vint ((if neg then -1 else 1) *
      ds.foldl (fun acc c => 10 * acc + digitVal c) 0)

/-- White space characters skipped by the modelled parseInt. -/
def isJsWhitespace (c : Char) : Bool :=
  [' ', '\t', '\n', '\r'].contains c

/-- Modelled platform builtin: the ECMAScript parseInt applied by
getUiParameters to integer-valued attributes (radix 10): skip leading
whitespace, accept an optional sign, then read the longest leading run of
decimal digits; a string with no such digits yields the not-a-number
sentinel. -/
def parseIntJS (s : List Char) : JSValue :=
  let t := s.dropWhile isJsWhitespace
  match t with
  | '-' :: rest => parseDigits true rest
  | '+' :: rest => parseDigits false rest
  | _ => parseDigits false t

/-- The per-key coercion of getUiParameters (source lines 77-88), applied
when an attribute override exists: "start-line-number" maps (any letter
case of) "none" to null and anything else through parseInt; "min-lines"
and "max-lines" go through parseInt; the mere presence of "hidden" gives
true; every other key keeps the attribute string. -/
def coerceAttr (attrName : String) (value : List Char) : JSValue :=
  if attrName = "start-line-number" then
    if value.map Char.toLower = "none".data then JSValue.vnull else parseIntJS value
  else if attrName = "min-lines" ∨ attrName = "max-lines" then
    parseIntJS value
  else if attrName = "hidden" then
    JSValue.vbool true
  else
    JSValue.vstr value

/-- The per-key resolution of getUiParameters (source lines 69-88): an
attribute override (direct or data- namespaced) is coerced by key, absence
keeps the default value. -/
def resolveValue (pre : AttrSource) (attrName : String) (dflt : JSValue) : JSValue :=
  match lookupAttr pre attrName with
  | some v => coerceAttr attrName v
  | none => dflt

/-- The main loop of getUiParameters (source lines 67-91): resolve every
key of the default-parameter object. -/
def resolveAll (pre : AttrSource) (defaultParams : List (String × JSValue)) :
    List (String × JSValue) :=
  defaultParams.map fun p => (p.1, resolveValue pre p.1 p.2)

/-- JavaScript property assignment on an object modelled as an association
list: an existing key is overwritten in place, a new key is appended. -/
def setKey (m : List (String × JSValue)) (k : String) (v : JSValue) :
    List (String × JSValue) :=
  if (lookupKey m k).isSome then
    m.map fun p => if p.1 = k then (k, v) else p
  else
    m ++ [(k, v)]

/-- The value assigned to the "lang" key for a matching class token
(source line 97): the token with its first occurrence of "language-"
removed. -/
def langFromToken (tok : List Char) : JSValue :=
  JSValue.vstr (replaceOnce "language-".data [] tok)

/-- The forEach post-process of getUiParameters (source lines 95-99):
every class token beginning with "language" overwrites the "lang" key. -/
def applyLangTokens (tokens : List (List Char)) (ui : List (String × JSValue)) :
    List (String × JSValue) :=
  tokens.foldl
    (fun m tok =>
      if startsWithList tok "language".data then
        setKey m "lang" (langFromToken tok)
      else
        m)
    ui

/-- The last class token beginning with "language", if any: the token whose
language suffix ends up in the "lang" key. -/
def lastLangToken (tokens : List (List Char)) : Option (List Char) :=
  tokens.foldl
    (fun acc tok => if startsWithList tok "language".data then some tok else acc)
    none

/-- getUiParameters (source lines 64-101): resolve every default key, then
split the resolved "class" value on spaces and let matching class tokens
overwrite "lang".  In JavaScript the split throws a TypeError when the
resolved "class" value is absent or not a string; this is modelled with
`Except`. -/
def getUiParameters (pre : AttrSource) (defaultParams : List (String × JSValue)) :
    Except String (List (String × JSValue)) :=
  let uiParameters := resolveAll pre defaultParams
  match lookupKey uiParameters "class" with
  | some (JSValue.vstr cls) =>
      Except.ok (applyLangTokens (splitOnSpace cls) uiParameters)
  | _ => Except.error "TypeError: split is not a function"

/-
Lemmas about the resolver's association-list operations.
-/

theorem resolveAll_cons (pre : AttrSource) (p : String × JSValue)
    (rest : List (String × JSValue)) :
    resolveAll pre (p :: rest) =
      (p.1, resolveValue pre p.1 p.2) :: resolveAll pre rest := rfl

theorem lookupKey_resolveAll (pre : AttrSource)
    (defaultParams : List (String × JSValue)) (k : String) :
    lookupKey (resolveAll pre defaultParams) k =
      (lookupKey defaultParams k).map fun d => resolveValue pre k d := by
  induction defaultParams with
  | nil => rfl
  | cons p rest ih =>
      obtain ⟨a, d⟩ := p
      rw [resolveAll_cons]
      show (if a = k then some (resolveValue pre a d) else lookupKey (resolveAll pre rest) k) =
        Option.map _ (if a = k then some d else lookupKey rest k)
      by_cases h : a = k
      · subst h
        rw [if_pos rfl, if_pos rfl]
        rfl
      · rw [if_neg h, if_neg h]
        exact ih

theorem lookupKey_append (m1 m2 : List (String × JSValue)) (k : String) :
    lookupKey (m1 ++ m2) k =
      match lookupKey m1 k with
      | some v => some v
      | none => lookupKey m2 k := by
  induction m1 with
  | nil => rfl
  | cons p rest ih =>
      obtain ⟨a, d⟩ := p
      show (if a = k then some d else lookupKey (rest ++ m2) k) = _
      by_cases h : a = k
      · rw [if_pos h]
        show _ = (match (if a = k then some d else lookupKey rest k) with
          | some v => some v
          | none => lookupKey m2 k)
        rw [if_pos h]
      · rw [if_neg h, ih]
        show _ = (match (if a = k then some d else lookupKey rest k) with
          | some v => some v
          | none => lookupKey m2 k)
        rw [if_neg h]

theorem lookupKey_map_update (m : List (String × JSValue)) (k : String) (v : JSValue) :
    lookupKey (m.map fun p => if p.1 = k then (k, v) else p) k =
      (lookupKey m k).map fun _ => v := by
  induction m with
  | nil => rfl
  | cons p rest ih =>
      obtain ⟨a, d⟩ := p
      by_cases h : a = k
      · subst h
        show lookupKey ((if a = a then (a, v) else (a, d)) :: _) a = _
        rw [if_pos rfl]
        show (if a = a then some v else _) = _
        rw [if_pos rfl]
        show _ = Option.map _ (if a = a then some d else lookupKey rest a)
        rw [if_pos rfl]
        rfl
      · show lookupKey ((if a = k then (k, v) else (a, d)) :: _) k = _
        rw [if_neg h]
        show (if a = k then some d else _) = _
        rw [if_neg h]
        show _ = Option.map _ (if a = k then some d else lookupKey rest k)
        rw [if_neg h]
        exact ih

theorem lookupKey_map_update_ne (m : List (String × JSValue)) (k k2 : String)
    (v : JSValue) (h : k2 ≠ k) :
    lookupKey (m.map fun p => if p.1 = k then (k, v) else p) k2 = lookupKey m k2 := by
  induction m with
  | nil => rfl
  | cons p rest ih =>
      obtain ⟨a, d⟩ := p
      by_cases ha : a = k
      · subst ha
        show lookupKey ((if a = a then (a, v) else (a, d)) :: _) k2 = _
        rw [if_pos rfl]
        show (if a = k2 then some v else _) = (if a = k2 then some d else _)
        rw [if_neg (fun hak => h (hak.symm)), if_neg (fun hak => h (hak.symm)), ih]
      · show lookupKey ((if a = k then (k, v) else (a, d)) :: _) k2 = _
        rw [if_neg ha]
        show (if a = k2 then some d else _) = (if a = k2 then some d else _)
        by_cases hk2 : a = k2
        · rw [if_pos hk2, if_pos hk2]
        · rw [if_neg hk2, if_neg hk2, ih]

theorem lookupKey_setKey_self (m : List (String × JSValue)) (k : String) (v : JSValue) :
    lookupKey (setKey m k v) k = some v := by
  unfold setKey
  by_cases hm : (lookupKey m k).isSome
  · rw [if_pos hm, lookupKey_map_update]
    obtain ⟨w, hw⟩ := Option.isSome_iff_exists.mp hm
    rw [hw]
    rfl
  · rw [if_neg hm, lookupKey_append]
    rw [Option.not_isSome_iff_eq_none.mp hm]
    show lookupKey [(k, v)] k = some v
    show (if k = k then some v else none) = some v
    rw [if_pos rfl]

theorem lookupKey_setKey_ne (m : List (String × JSValue)) (k k2 : String)
    (v : JSValue) (h : k2 ≠ k) :
    lookupKey (setKey m k v) k2 = lookupKey m k2 := by
  unfold setKey
  by_cases hm : (lookupKey m k).isSome
  · rw [if_pos hm, lookupKey_map_update_ne _ _ _ _ h]
  · rw [if_neg hm, lookupKey_append]
    have : lookupKey [(k, v)] k2 = none := by
      show (if k = k2 then some v else none) = none
      rw [if_neg fun hk => h hk.symm]
    cases hv : lookupKey m k2 with
    | none => rw [this]
    | some w => rfl

theorem applyLangTokens_cons (t : List Char) (ts : List (List Char))
    (ui : List (String × JSValue)) :
    applyLangTokens (t :: ts) ui =
      applyLangTokens ts
        (if startsWithList t "language".data then
          setKey ui "lang" (langFromToken t)
        else
          ui) := rfl

theorem lastLangToken_foldl (ts : List (List Char)) (acc : Option (List Char)) :
    ts.foldl
        (fun a tok => if startsWithList tok "language".data then some tok else a)
        acc =
      match lastLangToken ts with
      | some t => some t
      | none => acc := by
  induction ts generalizing acc with
  | nil => rfl
  | cons t ts ih =>
      show List.foldl _ (if startsWithList t "language".data then some t else acc) ts = _
      rw [ih]
      have hts : lastLangToken (t :: ts) =
          match lastLangToken ts with
          | some x => some x
          | none => if startsWithList t "language".data then some t else none := by
        show List.foldl _ (if startsWithList t "language".data then some t else none) ts = _
        rw [ih]
      rw [hts]
      cases lastLangToken ts with
      | none =>
          by_cases hc : startsWithList t "language".data
          · rw [if_pos hc, if_pos hc]
          · rw [if_neg hc, if_neg hc]
      | some x => rfl

theorem lastLangToken_cons (t : List Char) (ts : List (List Char)) :
    lastLangToken (t :: ts) =
      match lastLangToken ts with
      | some x => some x
      | none => if startsWithList t "language".data then some t else none := by
  show List.foldl _ (if startsWithList t "language".data then some t else none) ts = _
  rw [lastLangToken_foldl]

theorem lookupKey_applyLangTokens_ne (ts : List (List Char))
    (ui : List (String × JSValue)) (k : String) (h : k ≠ "lang") :
    lookupKey (applyLangTokens ts ui) k = lookupKey ui k := by
  induction ts generalizing ui with
  | nil => rfl
  | cons t ts ih =>
      rw [applyLangTokens_cons]
      by_cases hc : startsWithList t "language".data
      · rw [if_pos hc, ih, lookupKey_setKey_ne _ _ _ _ h]
      · rw [if_neg hc, ih]

theorem lookupKey_applyLangTokens_lang (ts : List (List Char))
    (ui : List (String × JSValue)) :
    lookupKey (applyLangTokens ts ui) "lang" =
      match lastLangToken ts with
      | some tok => some (langFromToken tok)
      | none => lookupKey ui "lang" := by
  induction ts generalizing ui with
  | nil => rfl
  | cons t ts ih =>
      rw [applyLangTokens_cons, ih, lastLangToken_cons]
      cases hl : lastLangToken ts with
      | some x => rfl
      | none =>
          by_cases hc : startsWithList t "language".data
          · rw [if_pos hc, if_pos hc, lookupKey_setKey_self]
          · rw [if_neg hc, if_neg hc]

theorem getUiParameters_ok_elim (pre : AttrSource)
    (defaultParams cfg : List (String × JSValue))
    (hok : getUiParameters pre defaultParams = Except.ok cfg) :
    ∃ cls, lookupKey (resolveAll pre defaultParams) "class" = some (JSValue.vstr cls) ∧
      cfg = applyLangTokens (splitOnSpace cls) (resolveAll pre defaultParams) := by
  simp only [getUiParameters] at hok
  cases hcl : lookupKey (resolveAll pre defaultParams) "class" with
  | none =>
      rw [hcl] at hok
      cases hok
  | some v =>
      rw [hcl] at hok
      cases v with
      | vstr cls =>
          refine ⟨cls, rfl, ?_⟩
          cases hok
          rfl
      | vint n => cases hok
      | vnan => cases hok
      | vbool b => cases hok
      | vnull => cases hok

theorem lookupKey_ok_ne_lang (pre : AttrSource)
    (defaultParams cfg : List (String × JSValue)) (k : String)
    (hok : getUiParameters pre defaultParams = Except.ok cfg) (hk : k ≠ "lang") :
    lookupKey cfg k = (lookupKey defaultParams k).map fun d => resolveValue pre k d := by
  obtain ⟨cls, hcl, rfl⟩ := getUiParameters_ok_elim pre defaultParams cfg hok
  rw [lookupKey_applyLangTokens_ne _ _ _ hk, lookupKey_resolveAll]

/-
Concrete inputs used by counterexamples and witnesses.
-/

/-- An element with no attributes at all. -/
def emptyAttrSrc : AttrSource := fun _ => none

/-- An element whose only attribute is class="language-java". -/
def classLangSrc : AttrSource := fun k =>
  if k = "class" then some "language-java".data else none

/-- An element carrying overrides for the integer-coerced keys, a
mixed-case "none" start-line-number and a (data- namespaced) hidden
attribute with an empty value. -/
def attrOverrideSrc : AttrSource := fun k =>
  if k = "min-lines" then some "7".data
  else if k = "max-lines" then some "9".data
  else if k = "start-line-number" then some "NoNe".data
  else if k = "data-hidden" then some "".data
  else none

/-- A small default-parameter object in the shape of the feature defaults
of the source (lines 440-450 and 462-484). -/
def exDefaults : List (String × JSValue) :=
  [("class", JSValue.vstr "x".data),
   ("lang", JSValue.vstr "python3".data),
   ("hidden", JSValue.vbool false),
   ("min-lines", JSValue.vint 1),
   ("max-lines", JSValue.vint 50),
   ("start-line-number", JSValue.vnull)]

/-- The configuration resolved from `classLangSrc` and `exDefaults`. -/
def exCfgLang : List (String × JSValue) :=
  [("class", JSValue.vstr "language-java".data),
   ("lang", JSValue.vstr "java".data),
   ("hidden", JSValue.vbool false),
   ("min-lines", JSValue.vint 1),
   ("max-lines", JSValue.vint 50),
   ("start-line-number", JSValue.vnull)]

/-
Reduction lemmas for the per-key coercion and the modelled parseInt.
-/

theorem coerceAttr_start_line_number (v : List Char) :
    coerceAttr "start-line-number" v =
      if v.map Char.toLower = "none".data then JSValue.vnull else parseIntJS v := rfl

theorem coerceAttr_min_lines (v : List Char) :
    coerceAttr "min-lines" v = parseIntJS v := rfl

theorem coerceAttr_max_lines (v : List Char) :
    coerceAttr "max-lines" v = parseIntJS v := rfl

theorem coerceAttr_hidden (v : List Char) :
    coerceAttr "hidden" v = JSValue.vbool true := rfl

theorem mem_of_mem_dropWhile (p : Char → Bool) (l : List Char) (c : Char)
    (h : c ∈ l.dropWhile p) : c ∈ l := by
  induction l with
  | nil => exact absurd h (List.not_mem_nil c)
  | cons a t ih =>
      rw [List.dropWhile_cons] at h
      by_cases hp : p a = true
      · rw [if_pos hp] at h
        exact List.mem_cons_of_mem a (ih h)
      · rw [if_neg hp] at h
        exact h

theorem parseDigits_nan (neg : Bool) (s : List Char)
    (h : ∀ c ∈ s, ¬ c.isDigit) : parseDigits neg s = JSValue.vnan := by
  have ht : s.takeWhile Char.isDigit = [] := by
    cases s with
    | nil => rfl
    | cons a t =>
        rw [List.takeWhile_cons, if_neg (h a (List.mem_cons_self a t))]
  simp only [parseDigits, ht]
  rfl

theorem parseIntJS_nan (v : List Char) (h : ∀ c ∈ v, ¬ c.isDigit) :
    parseIntJS v = JSValue.vnan := by
  have hd : ∀ c ∈ v.dropWhile isJsWhitespace, ¬ c.isDigit :=
    fun c hc => h c (mem_of_mem_dropWhile _ _ _ hc)
  simp only [parseIntJS]
  split
  · next rest heq =>
      refine parseDigits_nan true rest fun c hc => ?_
      exact (heq ▸ hd) c (List.mem_cons_of_mem _ hc)
  · next rest heq =>
      refine parseDigits_nan false rest fun c hc => ?_
      exact (heq ▸ hd) c (List.mem_cons_of_mem _ hc)
  · next =>
      exact parseDigits_nan false _ hd

theorem firstMatch_mem (r : SandboxResponse) (rows : List (Int × Int × String)) :
    firstMatch r rows ∈ "error_unknown_runtime" :: rows.map fun row => row.2.2 := by
  induction rows with
  | nil => exact List.mem_cons_self _ _
  | cons row rest ih =>
      rw [firstMatch_cons]
      split_ifs with h
      · exact List.mem_cons_of_mem _ (List.mem_cons_self _ _)
      · rcases List.mem_cons.mp ih with h1 | h2
        · exact h1 ▸ List.mem_cons_self _ _
        · exact List.mem_cons_of_mem _ (List.mem_cons_of_mem _ h2)

/-- Counterexample to C5: with class="language-java" and no lang attribute
anywhere on the element, no override is found for the "lang" key, yet the
resolved "lang" is "java", not the default "python3": the class
post-process overwrites it. -/
theorem getUiParameters_lang_not_default_cex :
    lookupAttr classLangSrc "lang" = none ∧
    lookupKey exDefaults "lang" = some (JSValue.vstr "python3".data) ∧
    getUiParameters classLangSrc exDefaults = Except.ok exCfgLang ∧
    lookupKey exCfgLang "lang" = some (JSValue.vstr "java".data) ∧
    JSValue.vstr "java".data ≠ JSValue.vstr "python3".data := by
  refine ⟨rfl, rfl, rfl, rfl, by decide⟩

/-- C5 (amended): whenever getUiParameters returns a configuration, that
configuration has a value for every key of the defaults; every key other
than "lang" without an attribute override keeps its default value
unchanged; and "lang" itself keeps its no-override default only when no
class token starts with "language". -/
theorem getUiParameters_complete_and_default (pre : AttrSource)
    (defaults cfg : List (String × JSValue))
    (hok : getUiParameters pre defaults = Except.ok cfg) :
    (∀ k, (lookupKey defaults k).isSome → (lookupKey cfg k).isSome) ∧
    (∀ k d, k ≠ "lang" → lookupKey defaults k = some d → lookupAttr pre k = none →
        lookupKey cfg k = some d) ∧
    (∀ d cls, lookupKey defaults "lang" = some d → lookupAttr pre "lang" = none →
        lookupKey (resolveAll pre defaults) "class" = some (JSValue.vstr cls) →
        lastLangToken (splitOnSpace cls) = none →
        lookupKey cfg "lang" = some d) := by
  obtain ⟨cls0, hcl0, rfl⟩ := getUiParameters_ok_elim pre defaults cfg hok
  refine ⟨?_, ?_, ?_⟩
  · intro k hk
    by_cases hkl : k = "lang"
    · subst hkl
      rw [lookupKey_applyLangTokens_lang]
      cases hl : lastLangToken (splitOnSpace cls0) with
      | some tok => rfl
      | none =>
          rw [lookupKey_resolveAll]
          obtain ⟨dv, hdv⟩ := Option.isSome_iff_exists.mp hk
          rw [hdv]
          rfl
    · rw [lookupKey_applyLangTokens_ne _ _ _ hkl, lookupKey_resolveAll]
      obtain ⟨dv, hdv⟩ := Option.isSome_iff_exists.mp hk
      rw [hdv]
      rfl
  · intro k d hkl hd hnone
    rw [lookupKey_applyLangTokens_ne _ _ _ hkl, lookupKey_resolveAll, hd]
    simp only [Option.map_some', resolveValue, hnone]
  · intro d cls hd hnone hcls hlast
    have hc : cls = cls0 := by
      rw [hcl0] at hcls
      injection hcls with h2
      injection h2 with h3
      exact h3.symm
    subst hc
    rw [lookupKey_applyLangTokens_lang, hlast]
    show lookupKey (resolveAll pre defaults) "lang" = some d
    rw [lookupKey_resolveAll, hd]
    simp only [Option.map_some', resolveValue, hnone]

/-- Witness for C5 (amended) at the empty attribute source and the example
defaults: every default key stays present and unchanged. -/
theorem getUiParameters_complete_and_default_witness :
    (lookupKey exDefaults "min-lines").isSome ∧
    lookupKey exDefaults "hidden" = some (JSValue.vbool false) ∧
    lookupKey exDefaults "lang" = some (JSValue.vstr "python3".data) :=
  have h := getUiParameters_complete_and_default emptyAttrSrc exDefaults exDefaults rfl
  ⟨h.1 "min-lines" rfl,
   h.2.1 "hidden" (JSValue.vbool false) (by decide) rfl rfl,
   h.2.2 (JSValue.vstr "python3".data) "x".data rfl rfl rfl rfl⟩

/-- C6: a declared override (direct or data- namespaced) is coerced by
key: "start-line-number" maps any letter case of "none" to null and other
strings through the integer parse; "min-lines" and "max-lines" go through
the integer parse; the mere presence of "hidden" yields true, its absence
keeps the default. -/
theorem getUiParameters_coercion (pre : AttrSource)
    (defaults cfg : List (String × JSValue))
    (hok : getUiParameters pre defaults = Except.ok cfg) :
    (∀ v, lookupAttr pre "start-line-number" = some v →
        (lookupKey defaults "start-line-number").isSome →
        lookupKey cfg "start-line-number" =
          some (if v.map Char.toLower = "none".data then JSValue.vnull
            else parseIntJS v)) ∧
    (∀ v, lookupAttr pre "min-lines" = some v →
        (lookupKey defaults "min-lines").isSome →
        lookupKey cfg "min-lines" = some (parseIntJS v)) ∧
    (∀ v, lookupAttr pre "max-lines" = some v →
        (lookupKey defaults "max-lines").isSome →
        lookupKey cfg "max-lines" = some (parseIntJS v)) ∧
    (∀ v, lookupAttr pre "hidden" = some v →
        (lookupKey defaults "hidden").isSome →
        lookupKey cfg "hidden" = some (JSValue.vbool true)) ∧
    (∀ d, lookupAttr pre "hidden" = none → lookupKey defaults "hidden" = some d →
        lookupKey cfg "hidden" = some d) := by
  refine ⟨?_, ?_, ?_, ?_, ?_⟩
  · intro v hv hsome
    rw [lookupKey_ok_ne_lang pre defaults cfg "start-line-number" hok (by decide)]
    obtain ⟨dv, hdv⟩ := Option.isSome_iff_exists.mp hsome
    rw [hdv]
    simp only [Option.map_some', resolveValue, hv, coerceAttr_start_line_number]
  · intro v hv hsome
    rw [lookupKey_ok_ne_lang pre defaults cfg "min-lines" hok (by decide)]
    obtain ⟨dv, hdv⟩ := Option.isSome_iff_exists.mp hsome
    rw [hdv]
    simp only [Option.map_some', resolveValue, hv, coerceAttr_min_lines]
  · intro v hv hsome
    rw [lookupKey_ok_ne_lang pre defaults cfg "max-lines" hok (by decide)]
    obtain ⟨dv, hdv⟩ := Option.isSome_iff_exists.mp hsome
    rw [hdv]
    simp only [Option.map_some', resolveValue, hv, coerceAttr_max_lines]
  · intro v hv hsome
    rw [lookupKey_ok_ne_lang pre defaults cfg "hidden" hok (by decide)]
    obtain ⟨dv, hdv⟩ := Option.isSome_iff_exists.mp hsome
    rw [hdv]
    simp only [Option.map_some', resolveValue, hv, coerceAttr_hidden]
  · intro d hnone hd
    rw [lookupKey_ok_ne_lang pre defaults cfg "hidden" hok (by decide), hd]
    simp only [Option.map_some', resolveValue, hnone]

/-- The configuration resolved from `attrOverrideSrc` and `exDefaults`. -/
def exCfgOverride : List (String × JSValue) :=
  [("class", JSValue.vstr "x".data),
   ("lang", JSValue.vstr "python3".data),
   ("hidden", JSValue.vbool true),
   ("min-lines", JSValue.vint 7),
   ("max-lines", JSValue.vint 9),
   ("start-line-number", JSValue.vnull)]

/-- Witness for C6 at an element with min-lines="7", max-lines="9",
start-line-number="NoNe" and a data-hidden attribute. -/
theorem getUiParameters_coercion_witness :
    lookupKey exCfgOverride "start-line-number" =
      some (if "NoNe".data.map Char.toLower = "none".data then JSValue.vnull
        else parseIntJS "NoNe".data) ∧
    lookupKey exCfgOverride "min-lines" = some (parseIntJS "7".data) ∧
    lookupKey exCfgOverride "hidden" = some (JSValue.vbool true) :=
  have h := getUiParameters_coercion attrOverrideSrc exDefaults exCfgOverride rfl
  ⟨h.1 "NoNe".data rfl rfl, h.2.1 "7".data rfl rfl, h.2.2.2.1 "".data rfl rfl⟩

/-- Counterexample to C7: the token "language-java" begins with the prefix
"language", whose remainder is "-java"; the code instead assigns "java"
(it removes the first occurrence of "language-"). -/
theorem getUiParameters_language_token_cex :
    getUiParameters classLangSrc exDefaults = Except.ok exCfgLang ∧
    lookupKey exCfgLang "lang" = some (JSValue.vstr "java".data) ∧
    "language-java".data.drop "language".data.length = "-java".data ∧
    JSValue.vstr "java".data ≠ JSValue.vstr "-java".data := by
  refine ⟨rfl, rfl, rfl, by decide⟩

/-- C7 (amended): the resolver splits the resolved class value at space
characters; every token beginning with "language" overwrites "lang" with
the token minus its first occurrence of "language-" (the token unchanged
when "language-" does not occur in it); the last matching token wins, and
with no matching token "lang" keeps its loop-resolved value. -/
theorem getUiParameters_class_lang_tokens (pre : AttrSource)
    (defaults cfg : List (String × JSValue)) (cls : List Char)
    (hok : getUiParameters pre defaults = Except.ok cfg)
    (hcls : lookupKey (resolveAll pre defaults) "class" = some (JSValue.vstr cls)) :
    lookupKey cfg "lang" =
      match lastLangToken (splitOnSpace cls) with
      | some tok => some (JSValue.vstr (replaceOnce "language-".data [] tok))
      | none => lookupKey (resolveAll pre defaults) "lang" := by
  obtain ⟨cls', hcl', rfl⟩ := getUiParameters_ok_elim pre defaults cfg hok
  rw [hcl'] at hcls
  injection hcls with h2
  injection h2 with h3
  rw [h3]
  rw [lookupKey_applyLangTokens_lang]
  cases lastLangToken (splitOnSpace cls) <;> rfl

/-- Witness for C7 (amended) at the class="language-java" element. -/
theorem getUiParameters_class_lang_tokens_witness :
    lookupKey exCfgLang "lang" =
      match lastLangToken (splitOnSpace "language-java".data) with
      | some tok => some (JSValue.vstr (replaceOnce "language-".data [] tok))
      | none => lookupKey (resolveAll classLangSrc exDefaults) "lang" :=
  getUiParameters_class_lang_tokens classLangSrc exDefaults exCfgLang
    "language-java".data rfl rfl

/-- Counterexample to C9: for the empty defaults mapping the resolved
"class" value is missing, and getUiParameters fails with a TypeError
(uiParameters["class"].split is applied to undefined) instead of
terminating normally. -/
theorem getUiParameters_empty_defaults_error_cex :
    getUiParameters emptyAttrSrc [] =
      Except.error "TypeError: split is not a function" := rfl

/-- C9 (amended): the resolver terminates normally whenever the resolved
"class" value is a string (as it is under both feature defaults of the
source); malformed integer attribute values resolve to the not-a-number
sentinel rather than raising, and the classifier totally maps every
response to a langstring of its table (or the unknown-runtime default). -/
theorem resolver_and_classifier_no_failure :
    (∀ (pre : AttrSource) (defaults : List (String × JSValue)) (cls : List Char),
        lookupKey (resolveAll pre defaults) "class" = some (JSValue.vstr cls) →
        getUiParameters pre defaults =
          Except.ok (applyLangTokens (splitOnSpace cls) (resolveAll pre defaults))) ∧
    (∀ v : List Char, (∀ c ∈ v, ¬ c.isDigit) → parseIntJS v = JSValue.vnan) ∧
    (∀ r : SandboxResponse,
        diagnose r ∈ "error_unknown_runtime" :: ERROR_RESPONSES.map fun row => row.2.2) := by
  refine ⟨?_, parseIntJS_nan, fun r => firstMatch_mem r ERROR_RESPONSES⟩
  intro pre defaults cls hcls
  simp only [getUiParameters]
  rw [hcls]

/-- Witness for C9 (amended): a successful resolution, a malformed integer
attribute value resolving to the sentinel, and a classified response. -/
theorem resolver_and_classifier_no_failure_witness :
    getUiParameters emptyAttrSrc exDefaults =
      Except.ok (applyLangTokens (splitOnSpace "x".data)
        (resolveAll emptyAttrSrc exDefaults)) ∧
    parseIntJS "abc".data = JSValue.vnan ∧
    diagnose ⟨0, 15, [], [], []⟩ ∈
      "error_unknown_runtime" :: ERROR_RESPONSES.map fun row => row.2.2 :=
  ⟨resolver_and_classifier_no_failure.1 emptyAttrSrc exDefaults "x".data rfl,
   resolver_and_classifier_no_failure.2.1 "abc".data (by decide),
   resolver_and_classifier_no_failure.2.2 ⟨0, 15, [], [], []⟩⟩
